import Mathlib

/-!
Shallow embedding of `fakesnow/fakes.py`: the session-context checks, the
engine-error translation, the catalog-extension store writes and the result
metadata translation performed by `FakeSnowflakeCursor` /
`FakeSnowflakeConnection`, together with proofs about them.

The helper modules `fakesnow.checks`, `fakesnow.expr` and
`fakesnow.transforms` are not part of the embedded file; the values they
compute for a statement (the command key, the unqualified-table flags, the
side-channel annotations and the emitted SQL) are abstracted as attributes of
the parsed statement, and the target engine is abstracted as a state-passing
function on an opaque base state.
-/

set_option autoImplicit false

namespace Fakesnow

/-- Key of a row of `information_schema.tables_ext`: (catalog, schema, table). -/
abbrev TableKey := String × String × String

/-- Key of a row of `information_schema.columns_ext`:
(catalog, schema, table, column). -/
abbrev ColKey := String × String × String × String

/-- Semantics of the `INSERT ... ON CONFLICT (key) DO UPDATE SET ...`
statements issued by `execute`: insert a record, or overwrite the record
with the same key. -/
def upsertList {κ α : Type} [DecidableEq κ] (k : κ) (v : α) :
    List (κ × α) → List (κ × α)
  | [] => [(k, v)]
  | (k0, v0) :: rest =>
    if k0 = k then (k, v) :: rest else (k0, v0) :: upsertList k v rest

/-- Value stored for a key in an association-list store. -/
def lookupKey {κ α : Type} [DecidableEq κ] (k : κ) :
    List (κ × α) → Option α
  | [] => none
  | (k0, v0) :: rest => if k0 = k then some v0 else lookupKey k rest

/-- Number of records with a given key. -/
def countKey {κ α : Type} [DecidableEq κ] (k : κ) (l : List (κ × α)) : Nat :=
  l.countP (fun p => decide (p.1 = k))

/-- A sequence of upserts applied in order. -/
def applyUpserts {κ α : Type} [DecidableEq κ] (ops : List (κ × α))
    (store : List (κ × α)) : List (κ × α) :=
  ops.foldl (fun s p => upsertList p.1 p.2 s) store

/-- Value supplied by the latest upsert for a key in a sequence of upserts. -/
def lastWrite {κ α : Type} [DecidableEq κ] (k : κ) (ops : List (κ × α)) :
    Option α :=
  ((ops.filter (fun p => decide (p.1 = k))).map Prod.snd).getLast?

/-- Column descriptor built by `_describe_as_result_metadata` (the fields of
`ResultMetadata` it populates; sizes, precision and scale are nullable). -/
structure ResultMetadata where
  name : String
  type_code : Nat
  display_size : Option Nat
  internal_size : Option Nat
  precision : Option Nat
  scale : Option Nat
  is_nullable : Bool
deriving DecidableEq, Repr

/-- Numeric value of a run of digit characters, as Python `int()`. -/
def digitsToNat (ds : List Char) : Nat :=
  ds.foldl (fun n c => n * 10 + (c.toNat - 48)) 0

/-- Whether the regex pattern of a parenthesised precision/scale pair
matches at the head of the character list, returning the two groups. -/
def matchPrecScale : List Char → Option (Nat × Nat)
  | '(' :: rest =>
    let ds := rest.takeWhile Char.isDigit
    let r1 := rest.dropWhile Char.isDigit
    if ds.isEmpty then none
    else
      match r1 with
      | ',' :: rest2 =>
        let ds2 := rest2.takeWhile Char.isDigit
        let r2 := rest2.dropWhile Char.isDigit
        if ds2.isEmpty then none
        else
          match r2 with
          | ')' :: _ => some (digitsToNat ds, digitsToNat ds2)
          | _ => none
      | _ => none
  | _ => none

/-- Embeds the `re.search` of the precision/scale pattern performed on a
`DECIMAL` type string: the match at the first position where one exists. -/
def searchPrecScale : List Char → Option (Nat × Nat)
  | [] => none
  | c :: rest =>
    match matchPrecScale (c :: rest) with
    | some r => some r
    | none => searchPrecScale rest

/-- Embeds Python `str.startswith`: the given string begins with the given
pattern, character for character. -/
def strStartsWith (s pat : String) : Bool :=
  pat.toList.isPrefixOf s.toList

/-- Decimal digit character of a value below ten. -/
def digitChar (n : Nat) : Char := Char.ofNat (48 + n)

/-- Digit characters of a number, most significant first (empty for 0). -/
def natDigits (n : Nat) : List Char :=
  if h : n = 0 then []
  else natDigits (n / 10) ++ [digitChar (n % 10)]
termination_by n
decreasing_by exact Nat.div_lt_self (Nat.pos_of_ne_zero h) (by decide)

/-- Decimal numeral string of a number. -/
def natRepr (n : Nat) : String :=
  if n = 0 then "0" else String.mk (natDigits n)

/-- Embeds the inner `as_result_metadata` of
`FakeSnowflakeCursor._describe_as_result_metadata` (the third argument of the
source function is ignored there); `none` models raising
`NotImplementedError` for an unhandled column type. -/
def as_result_metadata (column_name column_type : String) :
    Option ResultMetadata :=
  if column_type = "BIGINT" then
    some ⟨column_name, 0, none, none, some 38, some 0, true⟩
  else if strStartsWith column_type "DECIMAL" then
    match searchPrecScale column_type.toList with
    | some (p, s) => some ⟨column_name, 0, none, none, some p, some s, true⟩
    | none => some ⟨column_name, 0, none, none, none, none, true⟩
  else if column_type = "VARCHAR" then
    some ⟨column_name, 2, none, some 16777216, none, none, true⟩
  else if column_type = "DOUBLE" then
    some ⟨column_name, 1, none, none, none, none, true⟩
  else if column_type = "BOOLEAN" then
    some ⟨column_name, 13, none, none, none, none, true⟩
  else if column_type = "DATE" then
    some ⟨column_name, 3, none, none, none, none, true⟩
  else if column_type = "TIMESTAMP" ∨ column_type = "TIMESTAMP_NS" then
    some ⟨column_name, 8, none, none, some 0, some 9, true⟩
  else
    none

/-- Embeds `_describe_as_result_metadata`: maps the per-row translation over
the (column name, column type) components of the describe rows. -/
def describe_as_result_metadata (rows : List (String × String)) :
    Option (List ResultMetadata) :=
  rows.mapM (fun r => as_result_metadata r.1 r.2)

/-- Engine (duckdb) exceptions distinguished by `execute`:
`BinderException` and `CatalogException`, each carrying a raw message. -/
inductive DuckErr : Type
  | binder (msg : String)
  | catalog (msg : String)
deriving DecidableEq, Repr

/-- First line of a message, as the Python split on a newline, index 0. -/
def firstLine (s : String) : String :=
  String.mk (s.toList.takeWhile (fun c => c ≠ '\n'))

/-- Errors surfaced by the cursor: translated warehouse errors
(`ProgrammingError` with message, errno, sqlstate), `NotImplementedError`,
and an engine error escaping untranslated (raised outside the try block). -/
inductive ExecError : Type
  | prog (msg : String) (errno : Nat) (sqlstate : String)
  | notImplemented (msg : String)
  | engine (e : DuckErr)
deriving DecidableEq, Repr

/-- Session state of `FakeSnowflakeConnection` read and written by the
cursor: current database/schema, the two explicitly-set flags, and the
parameter style (initialised to pyformat). -/
structure SessionCtx where
  database : Option String
  schema : Option String
  database_set : Bool
  schema_set : Bool
  paramstyle : String
deriving DecidableEq, Repr

/-- A `sqlglot` table node as consulted by `execute`: `catalog` and `db` are
empty strings when the corresponding part is absent. -/
structure TableRef where
  catalog : String
  db : String
  name : String
deriving DecidableEq, Repr

/-- Python `s or o` for a table part and its optional session fallback, as
rendered into the f-string SQL (a missing fallback renders as "None"). -/
def pyOr (s : String) (o : Option String) : String :=
  if s = "" then
    match o with
    | some t => t
    | none => "None"
  else s

/-- Observables of a parsed statement consumed by `execute`. `cmd` is the
command key of the expression; `no_database` and `no_schema` are the two
components of the unqualified-table check; `useIdent` is the payload of the
first identifier node when it is a string; `sql` is the duckdb SQL emitted
after the transform pipeline; `create_db_name`, `table_comment` and
`text_lengths` are the side-channel annotations left by the transforms, and
`tableRef` is the first table node of the transformed tree. The helper
modules computing these are outside the embedded file, so they are
abstracted as attributes of the statement. -/
structure Stmt where
  cmd : String
  no_database : Bool
  no_schema : Bool
  useIdent : Option String
  sql : String
  create_db_name : Option String
  table_comment : Option (TableRef × String)
  text_lengths : Option (List (String × Nat))
  tableRef : Option TableRef
deriving DecidableEq, Repr

/-- Engine-side state: an abstract base state `σ` driven by the emitted SQL,
plus the catalog relations and the two extension stores that the embedded
code manipulates through fixed-template statements. -/
structure EngineState (σ : Type) where
  base : σ
  relations : List (String × String)
  tablesExt : List (TableKey × String)
  columnsExt : List (ColKey × (Nat × Nat))
deriving DecidableEq, Repr

/-- Engine `CREATE TABLE` / `CREATE VIEW` of an extension object: fails with
a catalog error when a relation of that name already exists in the catalog,
otherwise records the relation. -/
def createRelation (cat name : String) (rels : List (String × String)) :
    Except DuckErr (List (String × String)) :=
  if (cat, name) ∈ rels then
    Except.error (DuckErr.catalog
      ("Table with name " ++ name ++ " already exists!"))
  else
    Except.ok ((cat, name) :: rels)

/-- Embeds `FakeSnowflakeConnection._create_info_schema_ext`: creates
`tables_ext`, `columns_ext` and the `columns_snowflake` view for a catalog,
in that order; returns the (possibly partially) updated catalog and the
first error, if any. -/
def create_info_schema_ext (cat : String) (rels : List (String × String)) :
    List (String × String) × Option DuckErr :=
  match createRelation cat "tables_ext" rels with
  | Except.error e => (rels, some e)
  | Except.ok r1 =>
    match createRelation cat "columns_ext" r1 with
    | Except.error e => (r1, some e)
    | Except.ok r2 =>
      match createRelation cat "columns_snowflake" r2 with
      | Except.error e => (r2, some e)
      | Except.ok r3 => (r3, none)

/-- Query parameters: a positional sequence, a dict (unsupported), or
absent. -/
inductive Params : Type
  | pos (ps : List String)
  | dict
  | none
deriving DecidableEq, Repr

/-- Message of the session-context error raised when no database is set. -/
def noDatabaseMsg (cmd : String) : String :=
  "Cannot perform " ++ cmd ++ ". This session does not have a current database. Call \x27USE DATABASE\x27, or use a qualified name."

/-- Message of the session-context error raised when no schema is set. -/
def noSchemaMsg (cmd : String) : String :=
  "Cannot perform " ++ cmd ++ ". This session does not have a current schema. Call \x27USE SCHEMA\x27, or use a qualified name."

/-- Key of the `tables_ext` upsert issued by `execute`: table catalog and
schema fall back to the session database/schema. -/
def extTableKey (conn : SessionCtx) (t : TableRef) : TableKey :=
  (pyOr t.catalog conn.database, pyOr t.db conn.schema, t.name)

/-- Key of a `columns_ext` upsert issued by `execute`. -/
def extColKey (conn : SessionCtx) (t : TableRef) (col : String) : ColKey :=
  (pyOr t.catalog conn.database, pyOr t.db conn.schema, t.name, col)

/-- Outcome of one cursor call: the session and engine state after the call
(a Python exception leaves the mutated objects in place) and the raised
error, if any (`none` means the cursor returned normally). -/
structure ExecResult (σ : Type) where
  conn : SessionCtx
  eng : EngineState σ
  err : Option ExecError
deriving DecidableEq, Repr

/-- Post-execution annotation handling of `execute`: record the table
comment into `tables_ext` and the declared text lengths into `columns_ext`
via the upsert statements. An empty `text_lengths` list is falsy in the
source guard; folding over it is likewise the identity. -/
def executeTail {σ : Type} (conn : SessionCtx) (eng : EngineState σ)
    (e : Stmt) : ExecResult σ :=
  let eng1 :=
    match e.table_comment with
    | some (t, c) =>
      { eng with tablesExt := upsertList (extTableKey conn t) c eng.tablesExt }
    | none => eng
  let eng2 :=
    match e.text_lengths, e.tableRef with
    | some tl, some t =>
      { eng1 with
        columnsExt :=
          tl.foldl
            (fun s p =>
              upsertList (extColKey conn t p.1) (p.2, min (p.2 * 4) 16777216) s)
            eng1.columnsExt }
    | _, _ => eng1
  ⟨conn, eng2, none⟩

/-- The USE DATABASE / USE SCHEMA session updates performed by `execute`
after the engine succeeds: the first identifier of the statement is
upper-cased and recorded, and the corresponding set flag raised. -/
def updateSession (conn : SessionCtx) (e : Stmt) : SessionCtx :=
  let conn1 :=
    if e.cmd = "USE DATABASE" then
      match e.useIdent with
      | some id =>
        { conn with database := some id.toUpper, database_set := true }
      | none => conn
    else conn
  if e.cmd = "USE SCHEMA" then
    match e.useIdent with
    | some id =>
      { conn1 with schema := some id.toUpper, schema_set := true }
    | none => conn1
  else conn1

/-- The post-success tail of `execute`: materialise the extension objects
when a database was created (an engine error here escapes untranslated),
then record the annotations. -/
def executePost {σ : Type} (conn2 : SessionCtx) (eng1 : EngineState σ)
    (e : Stmt) : ExecResult σ :=
  match e.create_db_name with
  | some db =>
    let r := create_info_schema_ext db eng1.relations
    let eng2 := { eng1 with relations := r.1 }
    match r.2 with
    | some de => ⟨conn2, eng2, some (ExecError.engine de)⟩
    | none => executeTail conn2 eng2 e
  | none => executeTail conn2 eng1 e

/-- Embeds `FakeSnowflakeCursor.execute` on an already-parsed expression:
session-context checks, engine execution with error translation, the USE
DATABASE / USE SCHEMA session updates, and the annotation-driven writes.
`run` is the target engine executing the emitted SQL on the base state. -/
def execute {σ : Type} (run : σ → String → Params → Except DuckErr σ)
    (conn : SessionCtx) (eng : EngineState σ) (e : Stmt) (params : Params) :
    ExecResult σ :=
  if e.no_database && !conn.database_set then
    ⟨conn, eng, some (ExecError.prog (noDatabaseMsg e.cmd) 90105 "22000")⟩
  else if e.no_schema && !conn.schema_set then
    ⟨conn, eng, some (ExecError.prog (noSchemaMsg e.cmd) 90106 "22000")⟩
  else
    match run eng.base e.sql params with
    | Except.error (DuckErr.binder m) =>
      ⟨conn, eng, some (ExecError.prog m 2043 "02000")⟩
    | Except.error (DuckErr.catalog m) =>
      ⟨conn, eng, some (ExecError.prog (firstLine m) 2003 "42S02")⟩
    | Except.ok b1 =>
      executePost (updateSession conn e) { eng with base := b1 } e

/-- Embeds `FakeSnowflakeCursor._rewrite_params`: dict parameters raise
`NotImplementedError`; a truthy positional sequence under pyformat/format
style rewrites the placeholders. -/
def rewrite_params (conn : SessionCtx) (command : String) (params : Params) :
    Except ExecError String :=
  match params with
  | Params.dict =>
    Except.error (ExecError.notImplemented "dict params not supported yet")
  | Params.pos ps =>
    if ps ≠ [] ∧ (conn.paramstyle = "pyformat" ∨ conn.paramstyle = "format")
    then Except.ok (command.replace "%s" "?")
    else Except.ok command
  | Params.none => Except.ok command

/-- Embeds `execute` on a string command: parameter rewriting, then parsing
(`parse` stands for the snowflake-dialect parser), then the expression-level
`execute`. -/
def executeStr {σ : Type} (parse : String → Stmt)
    (run : σ → String → Params → Except DuckErr σ)
    (conn : SessionCtx) (eng : EngineState σ) (command : String)
    (params : Params) : ExecResult σ :=
  match rewrite_params conn command params with
  | Except.error err => ⟨conn, eng, some err⟩
  | Except.ok cmd2 => execute run conn eng (parse cmd2) params

/-- The loop of `executemany`: one `execute` per parameter set in sequence
order, aborting when a call raises. -/
def execLoop {σ : Type} (parse : String → Stmt)
    (run : σ → String → Params → Except DuckErr σ)
    (conn : SessionCtx) (eng : EngineState σ) (command : String) :
    List Params → ExecResult σ
  | [] => ⟨conn, eng, none⟩
  | p :: rest =>
    let r := executeStr parse run conn eng command p
    match r.err with
    | some _ => r
    | none => execLoop parse run r.conn r.eng command rest

/-- Sequence-or-dict argument of `executemany`. -/
inductive SeqParams : Type
  | seq (ps : List Params)
  | dict
deriving DecidableEq, Repr

/-- Embeds `FakeSnowflakeCursor.executemany`: dict parameter sets raise
`NotImplementedError` before any execution; otherwise each parameter set is
executed in order. -/
def executemany {σ : Type} (parse : String → Stmt)
    (run : σ → String → Params → Except DuckErr σ)
    (conn : SessionCtx) (eng : EngineState σ) (command : String) :
    SeqParams → ExecResult σ
  | SeqParams.dict =>
    ⟨conn, eng, some (ExecError.notImplemented "dict params not supported yet")⟩
  | SeqParams.seq ps => execLoop parse run conn eng command ps

/-- Modelled from the spec: the end state of N sequential `execute` calls,
one per parameter set in sequence order; an exception from one call aborts
the remainder, as it would for a caller issuing the calls one by one. -/
def executeSeqSpec {σ : Type} (parse : String → Stmt)
    (run : σ → String → Params → Except DuckErr σ)
    (conn : SessionCtx) (eng : EngineState σ) (command : String) :
    List Params → ExecResult σ
  | [] => ⟨conn, eng, none⟩
  | p :: rest =>
    match executeStr parse run conn eng command p with
    | ⟨c2, e2, Option.none⟩ => executeSeqSpec parse run c2 e2 command rest
    | r => r

/-! Concrete fixtures used by witnesses. -/

/-- An engine accepting every statement without changing its base state. -/
def runOk : Unit → String → Params → Except DuckErr Unit :=
  fun s _ _ => Except.ok s

/-- A fresh session with nothing set. -/
def conn0 : SessionCtx := ⟨Option.none, Option.none, false, false, "pyformat"⟩

/-- A session with a current database but no current schema. -/
def connDbOnly : SessionCtx :=
  ⟨some "DB1", Option.none, true, false, "pyformat"⟩

/-- An empty engine state. -/
def eng0 : EngineState Unit := ⟨(), [], [], []⟩

/-- A statement referencing an unqualified table, with no annotations. -/
def stmt0 : Stmt :=
  ⟨"SELECT", true, true, Option.none, "SELECT * FROM T", Option.none,
    Option.none, Option.none, Option.none⟩

/-- A session with both database and schema set. -/
def connDbSchema : SessionCtx := ⟨some "DB1", some "S1", true, true, "pyformat"⟩

/-- A statement with fully qualified table references and no annotations. -/
def stmtQualified : Stmt :=
  ⟨"SELECT", false, false, Option.none, "SELECT 1", Option.none, Option.none,
    Option.none, Option.none⟩

/-- A statement performing USE DATABASE on the identifier marts. -/
def stmtUseDb : Stmt :=
  ⟨"USE DATABASE", false, false, some "marts", "USE marts", Option.none,
    Option.none, Option.none, Option.none⟩

/-- A CREATE TABLE statement declaring one VARCHAR(50) column NAME on an
unqualified table T1. -/
def stmtVarchar : Stmt :=
  ⟨"CREATE TABLE", false, false, Option.none, "CREATE TABLE T1 (NAME TEXT)",
    Option.none, Option.none, some [("NAME", 50)], some ⟨"", "", "T1"⟩⟩

/-- An engine raising a binder error with a two-line message. -/
def runBinderErr : Unit → String → Params → Except DuckErr Unit :=
  fun _ _ _ => Except.error (DuckErr.binder "Binder Error: oops\ndetail")

/-- An engine raising a catalog error with a two-line message. -/
def runCatalogErr : Unit → String → Params → Except DuckErr Unit :=
  fun _ _ _ => Except.error (DuckErr.catalog "Catalog Error: x\nLINE 1")

/-- Length columns served by the `columns_snowflake` view for a column key:
the view renames `ext_character_maximum_length` and
`ext_character_octet_length` of the joined `columns_ext` record into
`character_maximum_length` and `character_octet_length`. -/
def viewCharLengths {σ : Type} (eng : EngineState σ) (k : ColKey) :
    Option (Nat × Nat) :=
  lookupKey k eng.columnsExt

/-- A concrete extension-store key used by witnesses. -/
def k4 : TableKey := ("DB1", "S1", "T1")

/-- A lemma used across proofs: `executeTail` never changes the session. -/
theorem executeTail_conn {σ : Type} (conn : SessionCtx) (eng : EngineState σ)
    (e : Stmt) : (executeTail conn eng e).conn = conn := rfl

/-- A lemma used across proofs: `executeTail` raises nothing. -/
theorem executeTail_err {σ : Type} (conn : SessionCtx) (eng : EngineState σ)
    (e : Stmt) : (executeTail conn eng e).err = Option.none := rfl

/-- C1: a statement referencing an unqualified table that needs a database
qualifier, executed in a session whose current database is not set, raises
the no-database ProgrammingError with errno 90105 and sqlstate 22000; the
result does not depend on the engine `run` function and both the session and
the engine state are returned unchanged, so nothing reached the engine. -/
theorem execute_no_database_error {σ : Type}
    (run : σ → String → Params → Except DuckErr σ)
    (conn : SessionCtx) (eng : EngineState σ) (e : Stmt) (params : Params)
    (hdb : e.no_database = true) (hset : conn.database_set = false) :
    execute run conn eng e params =
      ⟨conn, eng, some (ExecError.prog (noDatabaseMsg e.cmd) 90105 "22000")⟩ := by
  simp [execute, hdb, hset]

/-- Witness for C1 at a concrete session, engine and statement. -/
theorem execute_no_database_error_witness :
    execute runOk conn0 eng0 stmt0 Params.none =
      ⟨conn0, eng0,
        some (ExecError.prog (noDatabaseMsg "SELECT") 90105 "22000")⟩ :=
  execute_no_database_error runOk conn0 eng0 stmt0 Params.none rfl rfl

/-- C2: a statement referencing an unqualified table that needs a schema
qualifier, executed in a session with a current database set but no current
schema set, raises the no-schema ProgrammingError with errno 90106 (distinct
from 90105) and sqlstate 22000; the result does not depend on the engine
`run` function, so nothing reached the engine. -/
theorem execute_no_schema_error {σ : Type}
    (run : σ → String → Params → Except DuckErr σ)
    (conn : SessionCtx) (eng : EngineState σ) (e : Stmt) (params : Params)
    (hdbset : conn.database_set = true) (hns : e.no_schema = true)
    (hss : conn.schema_set = false) :
    execute run conn eng e params =
      ⟨conn, eng, some (ExecError.prog (noSchemaMsg e.cmd) 90106 "22000")⟩ := by
  simp [execute, hdbset, hns, hss]

/-- Witness for C2 at a concrete session, engine and statement. -/
theorem execute_no_schema_error_witness :
    execute runOk connDbOnly eng0 stmt0 Params.none =
      ⟨connDbOnly, eng0,
        some (ExecError.prog (noSchemaMsg "SELECT") 90106 "22000")⟩ :=
  execute_no_schema_error runOk connDbOnly eng0 stmt0 Params.none rfl rfl rfl

/-- Helper for C8: the `executemany` loop equals the spec-side sequence of
`execute` calls. -/
theorem execLoop_eq_seqSpec {σ : Type} (parse : String → Stmt)
    (run : σ → String → Params → Except DuckErr σ) (command : String) :
    ∀ (ps : List Params) (conn : SessionCtx) (eng : EngineState σ),
      execLoop parse run conn eng command ps =
        executeSeqSpec parse run conn eng command ps := by
  intro ps
  induction ps with
  | nil => intro conn eng; rfl
  | cons p rest ih =>
    intro conn eng
    rw [execLoop, executeSeqSpec]
    rcases h : executeStr parse run conn eng command p with ⟨c2, e2, err⟩
    cases err with
    | none => simpa using ih c2 e2
    | some ex => simp

/-- C8: `executemany` over a positional sequence of N parameter sets
produces the same end state (session and engine) as N sequential `execute`
calls, one per parameter set in order; over the empty sequence it executes
nothing and changes nothing. -/
theorem executemany_eq_sequential_execute {σ : Type} (parse : String → Stmt)
    (run : σ → String → Params → Except DuckErr σ)
    (conn : SessionCtx) (eng : EngineState σ) (command : String)
    (ps : List Params) :
    executemany parse run conn eng command (SeqParams.seq ps) =
      executeSeqSpec parse run conn eng command ps ∧
    executemany parse run conn eng command (SeqParams.seq []) =
      ⟨conn, eng, Option.none⟩ :=
  ⟨execLoop_eq_seqSpec parse run command ps conn eng, rfl⟩

/-- C9: calling `execute` (string command) or `executemany` with
dictionary-keyed parameters raises NotImplementedError while leaving the
session and engine state untouched; the result does not depend on the
parser or the engine, so the failure occurs before any SQL is parsed,
transformed or sent. -/
theorem dict_params_not_implemented {σ : Type} (parse : String → Stmt)
    (run : σ → String → Params → Except DuckErr σ)
    (conn : SessionCtx) (eng : EngineState σ) (command : String) :
    executeStr parse run conn eng command Params.dict =
      ⟨conn, eng,
        some (ExecError.notImplemented "dict params not supported yet")⟩ ∧
    executemany parse run conn eng command SeqParams.dict =
      ⟨conn, eng,
        some (ExecError.notImplemented "dict params not supported yet")⟩ :=
  ⟨rfl, rfl⟩

/-- Counterexample to C6: for a binder error the raised ProgrammingError
carries the engine message in full, not its first line — here the two-line
raw message survives unshortened, and differs from its first line. -/
theorem binder_message_not_first_line :
    (execute runBinderErr connDbSchema eng0 stmtQualified Params.none).err =
      some (ExecError.prog "Binder Error: oops\ndetail" 2043 "02000") ∧
    firstLine "Binder Error: oops\ndetail" = "Binder Error: oops" ∧
    "Binder Error: oops\ndetail" ≠ "Binder Error: oops" := by
  refine ⟨rfl, by decide, by decide⟩

/-- C6 (amended): when the engine raises a binder error the caller receives
a ProgrammingError with errno 2043 and sqlstate 02000 whose message is the
engine's raw message text in full; when the engine raises a catalog error
the caller receives a ProgrammingError with errno 2003 and sqlstate 42S02
whose message is the first line of the engine's raw message text. -/
theorem engine_error_translation {σ : Type}
    (run : σ → String → Params → Except DuckErr σ)
    (conn : SessionCtx) (eng : EngineState σ) (e : Stmt) (params : Params)
    (hg1 : (e.no_database && !conn.database_set) = false)
    (hg2 : (e.no_schema && !conn.schema_set) = false) :
    (∀ m, run eng.base e.sql params = Except.error (DuckErr.binder m) →
      execute run conn eng e params =
        ⟨conn, eng, some (ExecError.prog m 2043 "02000")⟩) ∧
    (∀ m, run eng.base e.sql params = Except.error (DuckErr.catalog m) →
      execute run conn eng e params =
        ⟨conn, eng, some (ExecError.prog (firstLine m) 2003 "42S02")⟩) := by
  constructor <;> intro m hr <;> simp [execute, hg1, hg2, hr]

/-- Witness for C6 at a concrete engine raising a two-line catalog error. -/
theorem engine_error_translation_witness :
    execute runCatalogErr connDbSchema eng0 stmtQualified Params.none =
      ⟨connDbSchema, eng0,
        some (ExecError.prog (firstLine "Catalog Error: x\nLINE 1")
          2003 "42S02")⟩ :=
  (engine_error_translation runCatalogErr connDbSchema eng0 stmtQualified
    Params.none rfl rfl).2 "Catalog Error: x\nLINE 1" rfl

/-- C10: the session-context fields are updated atomically with respect to
engine failure — a statement whose command is not USE DATABASE or USE SCHEMA
leaves the session unchanged; whenever the engine raises, the session keeps
all four prior fields; and a successful USE DATABASE (resp. USE SCHEMA)
updates exactly the database (resp. schema) field to the upper-cased
identifier together with its set flag. -/
theorem execute_session_update_atomic {σ : Type}
    (run : σ → String → Params → Except DuckErr σ)
    (conn : SessionCtx) (eng : EngineState σ) (e : Stmt) (params : Params) :
    (e.cmd ≠ "USE DATABASE" → e.cmd ≠ "USE SCHEMA" →
      (execute run conn eng e params).conn = conn) ∧
    (∀ de, run eng.base e.sql params = Except.error de →
      (execute run conn eng e params).conn = conn) ∧
    (∀ id b1, e.cmd = "USE DATABASE" → e.useIdent = some id →
      (e.no_database && !conn.database_set) = false →
      (e.no_schema && !conn.schema_set) = false →
      run eng.base e.sql params = Except.ok b1 →
      (execute run conn eng e params).conn =
        { conn with database := some id.toUpper, database_set := true }) ∧
    (∀ id b1, e.cmd = "USE SCHEMA" → e.useIdent = some id →
      (e.no_database && !conn.database_set) = false →
      (e.no_schema && !conn.schema_set) = false →
      run eng.base e.sql params = Except.ok b1 →
      (execute run conn eng e params).conn =
        { conn with schema := some id.toUpper, schema_set := true }) := by
  have hupd : ∀ (c : SessionCtx), e.cmd ≠ "USE DATABASE" →
      e.cmd ≠ "USE SCHEMA" → updateSession c e = c := by
    intro c h1 h2
    simp [updateSession, h1, h2]
  have hconn : ∀ (c2 : SessionCtx) (eng1 : EngineState σ),
      (executePost c2 eng1 e).conn = c2 := by
    intro c2 eng1
    unfold executePost
    cases e.create_db_name with
    | none => rfl
    | some db =>
      rcases h : create_info_schema_ext db eng1.relations with ⟨r1, ro⟩
      cases ro with
      | none => simp [h, executeTail_conn]
      | some de => simp [h]
  refine ⟨?_, ?_, ?_, ?_⟩
  · intro h1 h2
    unfold execute
    split
    · rfl
    split
    · rfl
    rcases hr : run eng.base e.sql params with de | b1
    · cases de <;> rfl
    · rw [show (match Except.ok b1 with
        | Except.error (DuckErr.binder m) =>
          (⟨conn, eng, some (ExecError.prog m 2043 "02000")⟩ : ExecResult σ)
        | Except.error (DuckErr.catalog m) =>
          ⟨conn, eng, some (ExecError.prog (firstLine m) 2003 "42S02")⟩
        | Except.ok b1 =>
          executePost (updateSession conn e) { eng with base := b1 } e) =
          executePost (updateSession conn e) { eng with base := b1 } e
        from rfl]
      rw [hconn, hupd conn h1 h2]
  · intro de hr
    unfold execute
    split
    · rfl
    split
    · rfl
    rw [hr]
    cases de <;> rfl
  · intro id b1 hcmd hid hg1 hg2 hr
    have h2 : e.cmd ≠ "USE SCHEMA" := by rw [hcmd]; decide
    simp only [execute, hg1, hg2, hr, Bool.false_eq_true, if_false]
    rw [hconn]
    simp [updateSession, hcmd, h2, hid]
  · intro id b1 hcmd hid hg1 hg2 hr
    have h1 : e.cmd ≠ "USE DATABASE" := by rw [hcmd]; decide
    simp only [execute, hg1, hg2, hr, Bool.false_eq_true, if_false]
    rw [hconn]
    simp [updateSession, hcmd, h1, hid]

/-- Witness for C10: a successful USE DATABASE upper-cases the identifier
into the session database and raises its set flag. -/
theorem execute_session_update_atomic_witness :
    (execute runOk conn0 eng0 stmtUseDb Params.none).conn =
      { conn0 with database := some ("marts".toUpper), database_set := true } :=
  (execute_session_update_atomic runOk conn0 eng0 stmtUseDb
    Params.none).2.2.1 "marts" () rfl rfl rfl rfl rfl

/-- Lookup after upserting the same key finds the new value. -/
theorem lookupKey_upsert_self {κ α : Type} [DecidableEq κ] (k : κ) (v : α)
    (l : List (κ × α)) : lookupKey k (upsertList k v l) = some v := by
  induction l with
  | nil => simp [upsertList, lookupKey]
  | cons p rest ih =>
    rcases p with ⟨k0, v0⟩
    by_cases h : k0 = k
    · simp [upsertList, lookupKey, h]
    · simp [upsertList, lookupKey, h, ih]

/-- Upserting a different key does not change a lookup. -/
theorem lookupKey_upsert_ne {κ α : Type} [DecidableEq κ] (k k1 : κ) (v : α)
    (l : List (κ × α)) (h : k1 ≠ k) :
    lookupKey k (upsertList k1 v l) = lookupKey k l := by
  induction l with
  | nil => simp [upsertList, lookupKey, h]
  | cons p rest ih =>
    rcases p with ⟨k0, v0⟩
    by_cases h0 : k0 = k1
    · subst h0
      simp [upsertList, lookupKey, h]
    · simp [upsertList, lookupKey, h0, ih]

/-- Keys after an upsert come from the upserted key or the old store. -/
theorem keys_upsert_subset {κ α : Type} [DecidableEq κ] (k k1 : κ) (v : α)
    (l : List (κ × α)) (h : k1 ∈ (upsertList k v l).map Prod.fst) :
    k1 = k ∨ k1 ∈ l.map Prod.fst := by
  induction l with
  | nil =>
    simp only [upsertList, List.map_cons, List.map_nil,
      List.mem_singleton] at h
    exact Or.inl h
  | cons p rest ih =>
    rcases p with ⟨k0, v0⟩
    by_cases h0 : k0 = k
    · subst h0
      have hup : upsertList k0 v ((k0, v0) :: rest) = (k0, v) :: rest := by
        simp [upsertList]
      rw [hup] at h
      simp only [List.map_cons, List.mem_cons] at h ⊢
      tauto
    · simp only [upsertList, if_neg h0, List.map_cons, List.mem_cons] at h ⊢
      rcases h with h | h
      · exact Or.inr (Or.inl h)
      · rcases ih h with h1 | h1
        · exact Or.inl h1
        · exact Or.inr (Or.inr h1)

/-- An upsert preserves key distinctness. -/
theorem nodup_keys_upsert {κ α : Type} [DecidableEq κ] (k : κ) (v : α)
    (l : List (κ × α)) (h : (l.map Prod.fst).Nodup) :
    ((upsertList k v l).map Prod.fst).Nodup := by
  induction l with
  | nil => simp [upsertList]
  | cons p rest ih =>
    rcases p with ⟨k0, v0⟩
    simp only [List.map_cons, List.nodup_cons] at h
    by_cases h0 : k0 = k
    · subst h0
      have hup : upsertList k0 v ((k0, v0) :: rest) = (k0, v) :: rest := by
        simp [upsertList]
      rw [hup]
      simp only [List.map_cons, List.nodup_cons]
      exact h
    · simp only [upsertList, if_neg h0, List.map_cons, List.nodup_cons]
      refine ⟨?_, ih h.2⟩
      intro hmem
      rcases keys_upsert_subset k k0 v rest hmem with h1 | h1
      · exact h0 h1
      · exact h.1 h1

/-- With distinct keys, at most one record carries a given key. -/
theorem countKey_le_one_of_nodup {κ α : Type} [DecidableEq κ] (k : κ)
    (l : List (κ × α)) (h : (l.map Prod.fst).Nodup) : countKey k l ≤ 1 := by
  induction l with
  | nil => simp [countKey]
  | cons p rest ih =>
    rcases p with ⟨k0, v0⟩
    simp only [List.map_cons, List.nodup_cons] at h
    by_cases h0 : k0 = k
    · subst h0
      have hz : List.countP (fun p => decide (p.1 = k0)) rest = 0 := by
        apply List.countP_eq_zero.mpr
        intro p hp hdec
        have hpk : p.1 = k0 := of_decide_eq_true hdec
        exact h.1 (by rw [← hpk]; exact List.mem_map_of_mem Prod.fst hp)
      have hc : countKey k0 ((k0, v0) :: rest) = 1 := by
        simp [countKey, List.countP_cons, hz]
      omega
    · have hc : countKey k ((k0, v0) :: rest) = countKey k rest := by
        simp [countKey, List.countP_cons, h0]
      rw [hc]
      exact ih h.2

/-- A found key is carried by at least one record. -/
theorem countKey_pos_of_lookup {κ α : Type} [DecidableEq κ] (k : κ) (v : α)
    (l : List (κ × α)) (h : lookupKey k l = some v) : 1 ≤ countKey k l := by
  induction l with
  | nil => simp [lookupKey] at h
  | cons p rest ih =>
    rcases p with ⟨k0, v0⟩
    by_cases h0 : k0 = k
    · have hc : countKey k ((k0, v0) :: rest) = countKey k rest + 1 := by
        simp [countKey, List.countP_cons, h0]
      omega
    · simp only [lookupKey, if_neg h0] at h
      have hc : countKey k ((k0, v0) :: rest) = countKey k rest := by
        simp [countKey, List.countP_cons, h0]
      rw [hc]
      exact ih h

/-- A sequence of upserts that never writes a key preserves its lookup. -/
theorem lookupKey_applyUpserts_no_write {κ α : Type} [DecidableEq κ] (k : κ)
    (ops : List (κ × α))
    (h : ops.filter (fun p => decide (p.1 = k)) = []) :
    ∀ store, lookupKey k (applyUpserts ops store) = lookupKey k store := by
  induction ops with
  | nil => intro store; rfl
  | cons p rest ih =>
    intro store
    rw [List.filter_cons] at h
    by_cases hp : p.1 = k
    · rw [decide_eq_true hp] at h
      simp at h
    · rw [decide_eq_false hp] at h
      simp only [Bool.false_eq_true, if_false] at h
      show lookupKey k (applyUpserts rest (upsertList p.1 p.2 store)) = _
      rw [ih h, lookupKey_upsert_ne k p.1 p.2 store hp]

/-- After a sequence of upserts, a written key holds the latest value. -/
theorem lookupKey_applyUpserts_lastWrite {κ α : Type} [DecidableEq κ] (k : κ)
    (v : α) (ops : List (κ × α)) (h : lastWrite k ops = some v) :
    ∀ store, lookupKey k (applyUpserts ops store) = some v := by
  induction ops with
  | nil => simp [lastWrite] at h
  | cons p rest ih =>
    intro store
    by_cases hp : p.1 = k
    · rcases hrest : rest.filter (fun q => decide (q.1 = k)) with _ | ⟨q, qs⟩
      · have hv : v = p.2 := by
          simp [lastWrite, List.filter_cons, hp, hrest] at h
          exact h.symm
        subst hv
        show lookupKey k (applyUpserts rest (upsertList p.1 p.2 store)) = _
        rw [lookupKey_applyUpserts_no_write k rest hrest, hp,
          lookupKey_upsert_self]
      · have hp2 : decide (p.1 = k) = true := decide_eq_true hp
        have hlast : lastWrite k (p :: rest) = lastWrite k rest := by
          simp only [lastWrite, List.filter_cons, hp2, if_true, hrest,
            List.map_cons]
          rw [List.getLast?_cons_cons]
        exact ih (hlast ▸ h) _
    · have hlast : lastWrite k (p :: rest) = lastWrite k rest := by
        simp [lastWrite, List.filter_cons, hp]
      exact ih (hlast ▸ h) _

/-- Upsert sequences keep keys distinct. -/
theorem nodup_keys_applyUpserts {κ α : Type} [DecidableEq κ]
    (ops : List (κ × α)) :
    ∀ store : List (κ × α), (store.map Prod.fst).Nodup →
      ((applyUpserts ops store).map Prod.fst).Nodup := by
  induction ops with
  | nil => intro store h; exact h
  | cons p rest ih =>
    intro store h
    exact ih (upsertList p.1 p.2 store) (nodup_keys_upsert p.1 p.2 store h)

/-- Generic upsert correctness, instantiated by the claim theorems. -/
theorem applyUpserts_correct {κ α : Type} [DecidableEq κ]
    (store : List (κ × α)) (h : (store.map Prod.fst).Nodup)
    (ops : List (κ × α)) :
    ((applyUpserts ops store).map Prod.fst).Nodup ∧
    (∀ k v, lastWrite k ops = some v →
      lookupKey k (applyUpserts ops store) = some v ∧
      countKey k (applyUpserts ops store) = 1) := by
  have hnd := nodup_keys_applyUpserts ops store h
  refine ⟨hnd, ?_⟩
  intro k v hw
  have hl := lookupKey_applyUpserts_lastWrite k v ops hw store
  exact ⟨hl, Nat.le_antisymm (countKey_le_one_of_nodup k _ hnd)
    (countKey_pos_of_lookup k v _ hl)⟩

/-- C4: in both extension stores, after any sequence of upserts applied to a
store whose keys are distinct, keys stay distinct (at most one record per
key) and a key written by the sequence holds exactly one record whose value
is the one supplied by the latest upsert for that key. -/
theorem ext_store_upsert_semantics :
    (∀ (store : List (TableKey × String)), (store.map Prod.fst).Nodup →
      ∀ (ops : List (TableKey × String)),
        ((applyUpserts ops store).map Prod.fst).Nodup ∧
        (∀ k v, lastWrite k ops = some v →
          lookupKey k (applyUpserts ops store) = some v ∧
          countKey k (applyUpserts ops store) = 1)) ∧
    (∀ (store : List (ColKey × (Nat × Nat))), (store.map Prod.fst).Nodup →
      ∀ (ops : List (ColKey × (Nat × Nat))),
        ((applyUpserts ops store).map Prod.fst).Nodup ∧
        (∀ k v, lastWrite k ops = some v →
          lookupKey k (applyUpserts ops store) = some v ∧
          countKey k (applyUpserts ops store) = 1)) :=
  ⟨fun store h ops => applyUpserts_correct store h ops,
   fun store h ops => applyUpserts_correct store h ops⟩

/-- Witness for C4: two table-comment upserts with the same key leave one
record holding the later value. -/
theorem ext_store_upsert_semantics_witness :
    lookupKey k4 (applyUpserts [(k4, "first"), (k4, "second")]
      ([] : List (TableKey × String))) = some "second" ∧
    countKey k4 (applyUpserts [(k4, "first"), (k4, "second")]
      ([] : List (TableKey × String))) = 1 :=
  (ext_store_upsert_semantics.1 [] (by simp)
    [(k4, "first"), (k4, "second")]).2 k4 "second" (by decide)

/-- A statement that is not USE DATABASE or USE SCHEMA leaves the session
unchanged by the update step. -/
theorem updateSession_other (conn : SessionCtx) (e : Stmt)
    (h1 : e.cmd ≠ "USE DATABASE") (h2 : e.cmd ≠ "USE SCHEMA") :
    updateSession conn e = conn := by
  simp [updateSession, h1, h2]

/-- Folded upserts through an injective key map never touching a column
preserve its lookup. -/
theorem lookupKey_foldl_mapped_no_write {κ β : Type} [DecidableEq κ]
    (kf : String → κ) (hkf : ∀ a b, kf a = kf b → a = b)
    (vf : Nat → β) (col : String) :
    ∀ (tl : List (String × Nat)) (store : List (κ × β)),
      tl.filter (fun p => decide (p.1 = col)) = [] →
      lookupKey (kf col)
          (tl.foldl (fun s p => upsertList (kf p.1) (vf p.2) s) store) =
        lookupKey (kf col) store := by
  intro tl
  induction tl with
  | nil => intro store _; rfl
  | cons p rest ih =>
    intro store h
    rw [List.filter_cons] at h
    by_cases hp : p.1 = col
    · rw [decide_eq_true hp] at h
      simp at h
    · rw [decide_eq_false hp] at h
      simp only [Bool.false_eq_true, if_false] at h
      show lookupKey (kf col)
        (rest.foldl (fun s p => upsertList (kf p.1) (vf p.2) s)
          (upsertList (kf p.1) (vf p.2) store)) = _
      rw [ih (upsertList (kf p.1) (vf p.2) store) h,
        lookupKey_upsert_ne (kf col) (kf p.1) (vf p.2) store
          (fun heq => hp (hkf p.1 col heq))]

/-- Folded upserts through an injective key map: a column written exactly
once by the batch ends holding its mapped value. -/
theorem lookupKey_foldl_mapped {κ β : Type} [DecidableEq κ]
    (kf : String → κ) (hkf : ∀ a b, kf a = kf b → a = b)
    (vf : Nat → β) (col : String) (n : Nat) :
    ∀ (tl : List (String × Nat)) (store : List (κ × β)),
      tl.filter (fun p => decide (p.1 = col)) = [(col, n)] →
      lookupKey (kf col)
          (tl.foldl (fun s p => upsertList (kf p.1) (vf p.2) s) store) =
        some (vf n) := by
  intro tl
  induction tl with
  | nil => intro store h; simp at h
  | cons p rest ih =>
    intro store h
    rw [List.filter_cons] at h
    by_cases hp : p.1 = col
    · rw [decide_eq_true hp] at h
      simp only [if_true] at h
      rcases List.cons_eq_cons.mp h with ⟨hph, hrest⟩
      subst hph
      show lookupKey (kf col)
        (rest.foldl (fun s p => upsertList (kf p.1) (vf p.2) s)
          (upsertList (kf (col, n).1) (vf (col, n).2) store)) = _
      rw [lookupKey_foldl_mapped_no_write kf hkf vf col rest _ hrest]
      exact lookupKey_upsert_self (kf col) (vf n) store
    · rw [decide_eq_false hp] at h
      simp only [Bool.false_eq_true, if_false] at h
      show lookupKey (kf col)
        (rest.foldl (fun s p => upsertList (kf p.1) (vf p.2) s)
          (upsertList (kf p.1) (vf p.2) store)) = _
      exact ih _ h

/-- C5: after a successful `execute` of a statement (not a USE statement,
not creating a database) whose text-length annotations carry (col, n) as
the only entry for column col, the `columns_ext` record for that column
stores ext_character_maximum_length = n and ext_character_octet_length =
min (n*4) 16777216, as served by the `columns_snowflake` view. -/
theorem varchar_length_recorded {σ : Type}
    (run : σ → String → Params → Except DuckErr σ)
    (conn : SessionCtx) (eng : EngineState σ) (e : Stmt) (params : Params)
    (t : TableRef) (tl : List (String × Nat)) (col : String) (n : Nat)
    (hg1 : (e.no_database && !conn.database_set) = false)
    (hg2 : (e.no_schema && !conn.schema_set) = false)
    (hc1 : e.cmd ≠ "USE DATABASE") (hc2 : e.cmd ≠ "USE SCHEMA")
    (b1 : σ) (hr : run eng.base e.sql params = Except.ok b1)
    (hcdb : e.create_db_name = Option.none)
    (htl : e.text_lengths = some tl) (htb : e.tableRef = some t)
    (hcol : tl.filter (fun p => decide (p.1 = col)) = [(col, n)]) :
    viewCharLengths (execute run conn eng e params).eng
        (extColKey conn t col) = some (n, min (n * 4) 16777216) := by
  have hinj : ∀ a b : String, extColKey conn t a = extColKey conn t b →
      a = b := by
    intro a b hab
    simpa [extColKey] using congrArg (fun q => q.2.2.2) hab
  simp only [execute, hg1, hg2, Bool.false_eq_true, if_false, hr]
  rw [updateSession_other conn e hc1 hc2]
  unfold executePost
  rw [hcdb]
  unfold executeTail
  rw [htl, htb]
  cases htc : e.table_comment with
  | none =>
    exact lookupKey_foldl_mapped (fun c => extColKey conn t c) hinj
      (fun m => (m, min (m * 4) 16777216)) col n tl _ hcol
  | some tc =>
    rcases tc with ⟨tt, cc⟩
    exact lookupKey_foldl_mapped (fun c => extColKey conn t c) hinj
      (fun m => (m, min (m * 4) 16777216)) col n tl _ hcol

/-- Witness for C5: a VARCHAR(50) column NAME round-trips through the view
as maximum length 50 and octet length 200. -/
theorem varchar_length_recorded_witness :
    viewCharLengths
        (execute runOk connDbSchema eng0 stmtVarchar Params.none).eng
        (extColKey connDbSchema ⟨"", "", "T1"⟩ "NAME") = some (50, 200) :=
  varchar_length_recorded runOk connDbSchema eng0 stmtVarchar Params.none
    ⟨"", "", "T1"⟩ [("NAME", 50)] "NAME" 50 rfl rfl (by decide) (by decide)
    () rfl rfl rfl rfl (by decide)

/-- Counterexample to C7: `_create_info_schema_ext` is not idempotent — a
first call for a fresh catalog succeeds, but the creation statements are
plain CREATE, so calling it a second time for the same catalog raises an
engine error instead of succeeding with unchanged state. -/
theorem create_info_schema_ext_not_idempotent :
    (create_info_schema_ext "DB1" []).2 = Option.none ∧
    (create_info_schema_ext "DB1"
      (create_info_schema_ext "DB1" []).1).2 ≠ Option.none := by
  decide

/-- C7 (amended): for a catalog none of whose three extension objects exist
yet, `_create_info_schema_ext` succeeds and creates exactly one tables_ext,
one columns_ext and one columns_snowflake relation for that catalog; it is
not idempotent — a second call immediately after fails with an engine
already-exists error (in the program it is invoked only once per newly
created catalog). -/
theorem create_info_schema_ext_once (cat : String)
    (rels : List (String × String))
    (h1 : (cat, "tables_ext") ∉ rels) (h2 : (cat, "columns_ext") ∉ rels)
    (h3 : (cat, "columns_snowflake") ∉ rels) :
    (create_info_schema_ext cat rels).2 = Option.none ∧
    (create_info_schema_ext cat rels).1 =
      [(cat, "columns_snowflake"), (cat, "columns_ext"),
        (cat, "tables_ext")] ++ rels ∧
    (create_info_schema_ext cat rels).1.count (cat, "tables_ext") = 1 ∧
    (create_info_schema_ext cat rels).1.count (cat, "columns_ext") = 1 ∧
    (create_info_schema_ext cat rels).1.count (cat, "columns_snowflake")
      = 1 ∧
    (create_info_schema_ext cat
      (create_info_schema_ext cat rels).1).2 ≠ Option.none := by
  have e1 : createRelation cat "tables_ext" rels =
      Except.ok ((cat, "tables_ext") :: rels) := by
    simp [createRelation, h1]
  have hne1 : (cat, "columns_ext") ∉ (cat, "tables_ext") :: rels := by
    simp [h2]
  have e2 : createRelation cat "columns_ext" ((cat, "tables_ext") :: rels) =
      Except.ok ((cat, "columns_ext") :: (cat, "tables_ext") :: rels) := by
    simp [createRelation, hne1]
  have hne2 : (cat, "columns_snowflake") ∉
      (cat, "columns_ext") :: (cat, "tables_ext") :: rels := by
    simp [h3]
  have e3 : createRelation cat "columns_snowflake"
      ((cat, "columns_ext") :: (cat, "tables_ext") :: rels) =
      Except.ok ((cat, "columns_snowflake") :: (cat, "columns_ext") ::
        (cat, "tables_ext") :: rels) := by
    simp [createRelation, hne2]
  have hres : create_info_schema_ext cat rels =
      ([(cat, "columns_snowflake"), (cat, "columns_ext"),
        (cat, "tables_ext")] ++ rels, Option.none) := by
    simp [create_info_schema_ext, e1, e2, e3]
  have hz1 : rels.count (cat, "tables_ext") = 0 :=
    List.count_eq_zero.mpr h1
  have hz2 : rels.count (cat, "columns_ext") = 0 :=
    List.count_eq_zero.mpr h2
  have hz3 : rels.count (cat, "columns_snowflake") = 0 :=
    List.count_eq_zero.mpr h3
  have hmem : (cat, "tables_ext") ∈ (create_info_schema_ext cat rels).1 := by
    rw [hres]
    simp
  have hfail : (create_info_schema_ext cat
      (create_info_schema_ext cat rels).1).2 ≠ Option.none := by
    have hbad : createRelation cat "tables_ext"
        (create_info_schema_ext cat rels).1 =
        Except.error (DuckErr.catalog
          ("Table with name " ++ "tables_ext" ++ " already exists!")) := by
      simp [createRelation, hmem]
    rw [create_info_schema_ext, hbad]
    simp
  refine ⟨by rw [hres], by rw [hres], ?_, ?_, ?_, hfail⟩
  · rw [hres]
    simp [List.count_cons, List.count_append, hz1]
  · rw [hres]
    simp [List.count_cons, List.count_append, hz2]
  · rw [hres]
    simp [List.count_cons, List.count_append, hz3]

/-- Witness for C7 at the fresh catalog DB1 with an empty relation set. -/
theorem create_info_schema_ext_once_witness :
    (create_info_schema_ext "DB1" []).2 = Option.none ∧
    (create_info_schema_ext "DB1" []).1 =
      [("DB1", "columns_snowflake"), ("DB1", "columns_ext"),
        ("DB1", "tables_ext")] ++ [] ∧
    (create_info_schema_ext "DB1" []).1.count ("DB1", "tables_ext") = 1 ∧
    (create_info_schema_ext "DB1" []).1.count ("DB1", "columns_ext") = 1 ∧
    (create_info_schema_ext "DB1" []).1.count ("DB1", "columns_snowflake")
      = 1 ∧
    (create_info_schema_ext "DB1"
      (create_info_schema_ext "DB1" []).1).2 ≠ Option.none :=
  create_info_schema_ext_once "DB1" [] (by simp) (by simp) (by simp)

/-- String append distributes over toList. -/
theorem toList_append (a b : String) :
    (a ++ b).toList = a.toList ++ b.toList :=
  String.data_append a b

/-- A nonempty list is not isEmpty. -/
theorem nonnil_isEmpty {α : Type} {l : List α} (h : l ≠ []) :
    l.isEmpty = false := by
  cases l with
  | nil => exact absurd rfl h
  | cons a l => rfl

/-- Appending one digit multiplies the value by ten and adds the digit. -/
theorem digitsToNat_append (xs : List Char) (c : Char) :
    digitsToNat (xs ++ [c]) = digitsToNat xs * 10 + (c.toNat - 48) := by
  simp [digitsToNat, List.foldl_append]

/-- The digit character of a value below ten decodes back to it. -/
theorem digitChar_toNat (m : Nat) (h : m < 10) :
    (digitChar m).toNat - 48 = m := by
  interval_cases m <;> decide

/-- The digit character of a value below ten is a digit. -/
theorem digitChar_isDigit (m : Nat) (h : m < 10) :
    (digitChar m).isDigit = true := by
  interval_cases m <;> decide

/-- The digit rendering of a number decodes to the number. -/
theorem digitsToNat_natDigits (n : Nat) :
    digitsToNat (natDigits n) = n := by
  induction n using Nat.strong_induction_on with
  | _ n ih =>
    by_cases h : n = 0
    · rw [natDigits]
      simp [h, digitsToNat]
    · rw [natDigits, dif_neg h, digitsToNat_append,
        ih (n / 10) (Nat.div_lt_self (Nat.pos_of_ne_zero h) (by decide)),
        digitChar_toNat (n % 10) (Nat.mod_lt n (by decide))]
      omega

/-- Every character of a digit rendering is a digit. -/
theorem natDigits_all_digits (n : Nat) :
    ∀ c ∈ natDigits n, c.isDigit = true := by
  induction n using Nat.strong_induction_on with
  | _ n ih =>
    by_cases h : n = 0
    · rw [natDigits]
      simp [h]
    · rw [natDigits, dif_neg h]
      intro c hc
      rcases List.mem_append.mp hc with hc | hc
      · exact ih (n / 10) (Nat.div_lt_self (Nat.pos_of_ne_zero h)
          (by decide)) c hc
      · rw [List.mem_singleton] at hc
        subst hc
        exact digitChar_isDigit (n % 10) (Nat.mod_lt n (by decide))

/-- A positive number has a nonempty digit rendering. -/
theorem natDigits_ne_nil (n : Nat) (h : n ≠ 0) : natDigits n ≠ [] := by
  rw [natDigits, dif_neg h]
  simp

/-- The numeral of a number is a nonempty all-digit string decoding to it. -/
theorem natRepr_spec (n : Nat) :
    (natRepr n).toList ≠ [] ∧
    (∀ c ∈ (natRepr n).toList, c.isDigit = true) ∧
    digitsToNat (natRepr n).toList = n := by
  by_cases h : n = 0
  · subst h
    exact ⟨by decide, by decide, by decide⟩
  · rw [natRepr, if_neg h]
    exact ⟨natDigits_ne_nil n h, natDigits_all_digits n,
      digitsToNat_natDigits n⟩

/-- Splitting a digit run followed by a non-digit. -/
theorem takeWhile_digit_prefix (dp : List Char) (c : Char) (rest : List Char)
    (hdp : ∀ x ∈ dp, x.isDigit = true) (hc : c.isDigit = false) :
    (dp ++ c :: rest).takeWhile Char.isDigit = dp ∧
    (dp ++ c :: rest).dropWhile Char.isDigit = c :: rest := by
  induction dp with
  | nil =>
    constructor
    · simp [List.takeWhile_cons, hc]
    · simp [List.dropWhile_cons, hc]
  | cons d ds ih =>
    have hd : d.isDigit = true := hdp d (List.mem_cons_self d ds)
    have ihh := ih (fun x hx => hdp x (List.mem_cons_of_mem d hx))
    constructor
    · simp [List.takeWhile_cons, hd, ihh.1]
    · simp [List.dropWhile_cons, hd, ihh.2]

/-- The precision/scale pattern matches a parenthesised pair of digit runs
and extracts their values. -/
theorem matchPrecScale_exact (dp ds rest : List Char)
    (hdp : dp ≠ []) (hdpd : ∀ x ∈ dp, x.isDigit = true)
    (hds : ds ≠ []) (hdsd : ∀ x ∈ ds, x.isDigit = true) :
    matchPrecScale ('(' :: (dp ++ ',' :: (ds ++ ')' :: rest))) =
      some (digitsToNat dp, digitsToNat ds) := by
  have h1 := takeWhile_digit_prefix dp ',' (ds ++ ')' :: rest) hdpd
    (by decide)
  have h2 := takeWhile_digit_prefix ds ')' rest hdsd (by decide)
  simp only [matchPrecScale, h1.1, h1.2, nonnil_isEmpty hdp,
    Bool.false_eq_true, if_false, h2.1, h2.2, nonnil_isEmpty hds]

/-- The search steps over a position where the pattern does not match. -/
theorem searchPrecScale_skip (c : Char) (rest : List Char)
    (h : matchPrecScale (c :: rest) = Option.none) :
    searchPrecScale (c :: rest) = searchPrecScale rest := by
  rw [searchPrecScale, h]

/-- Searching the character form of a well-formed DECIMAL(p,s) type string
finds the two digit runs. -/
theorem searchPrecScale_decimal_arg (dp ds : List Char)
    (hdp : dp ≠ []) (hdpd : ∀ x ∈ dp, x.isDigit = true)
    (hds : ds ≠ []) (hdsd : ∀ x ∈ ds, x.isDigit = true) :
    searchPrecScale
        ('D' :: 'E' :: 'C' :: 'I' :: 'M' :: 'A' :: 'L' :: '(' ::
          (dp ++ ',' :: (ds ++ [')']))) =
      some (digitsToNat dp, digitsToNat ds) := by
  rw [searchPrecScale_skip 'D' _ rfl, searchPrecScale_skip 'E' _ rfl,
    searchPrecScale_skip 'C' _ rfl, searchPrecScale_skip 'I' _ rfl,
    searchPrecScale_skip 'M' _ rfl, searchPrecScale_skip 'A' _ rfl,
    searchPrecScale_skip 'L' _ rfl, searchPrecScale,
    matchPrecScale_exact dp ds [] hdp hdpd hds hdsd]

/-- Character form of a DECIMAL(p,s) type string. -/
theorem decimal_arg_toList (x y : String) :
    ("DECIMAL(" ++ x ++ "," ++ y ++ ")").toList =
      'D' :: 'E' :: 'C' :: 'I' :: 'M' :: 'A' :: 'L' :: '(' ::
        (x.toList ++ ',' :: (y.toList ++ [')'])) := by
  have h1 : "DECIMAL(".toList = ['D', 'E', 'C', 'I', 'M', 'A', 'L', '('] :=
    rfl
  have h2 : ",".toList = [','] := rfl
  have h3 : ")".toList = [')'] := rfl
  simp only [toList_append, h1, h2, h3, List.cons_append, List.nil_append,
    List.append_assoc]

/-- Strings with different character lists differ. -/
theorem ne_of_toList_ne (a b : String) (h : a.toList ≠ b.toList) : a ≠ b :=
  fun heq => h (congrArg String.toList heq)

/-- Counterexample to C3: the type string DECIMAL without a (p,s) suffix is
outside the claim's closed table, yet the translator returns a descriptor
(type code 0, null precision and scale) instead of raising. -/
theorem decimal_without_scale_is_mapped :
    as_result_metadata "c" "DECIMAL" =
      some ⟨"c", 0, Option.none, Option.none, Option.none, Option.none,
        true⟩ ∧
    as_result_metadata "c" "DECIMAL" ≠ Option.none := by
  constructor
  · decide
  · decide

/-- C3 (amended): the translation is the closed table of the claim on
BIGINT, well-formed DECIMAL(p,s), VARCHAR, DOUBLE, BOOLEAN, DATE,
TIMESTAMP and TIMESTAMP_NS, and raises for every type string outside the
table, except that the DECIMAL branch accepts any string starting with
DECIMAL, yielding null precision and scale when no (p,s) pair is present. -/
theorem describe_metadata_mapping (cname : String) :
    (as_result_metadata cname "BIGINT" =
      some ⟨cname, 0, Option.none, Option.none, some 38, some 0, true⟩) ∧
    (∀ p s : Nat,
      as_result_metadata cname
          ("DECIMAL(" ++ natRepr p ++ "," ++ natRepr s ++ ")") =
        some ⟨cname, 0, Option.none, Option.none, some p, some s, true⟩) ∧
    (as_result_metadata cname "VARCHAR" =
      some ⟨cname, 2, Option.none, some 16777216, Option.none, Option.none,
        true⟩) ∧
    (as_result_metadata cname "DOUBLE" =
      some ⟨cname, 1, Option.none, Option.none, Option.none, Option.none,
        true⟩) ∧
    (as_result_metadata cname "BOOLEAN" =
      some ⟨cname, 13, Option.none, Option.none, Option.none, Option.none,
        true⟩) ∧
    (as_result_metadata cname "DATE" =
      some ⟨cname, 3, Option.none, Option.none, Option.none, Option.none,
        true⟩) ∧
    (as_result_metadata cname "TIMESTAMP" =
      some ⟨cname, 8, Option.none, Option.none, some 0, some 9, true⟩) ∧
    (as_result_metadata cname "TIMESTAMP_NS" =
      some ⟨cname, 8, Option.none, Option.none, some 0, some 9, true⟩) ∧
    (∀ ct : String, ct ≠ "BIGINT" → strStartsWith ct "DECIMAL" = false →
      ct ≠ "VARCHAR" → ct ≠ "DOUBLE" → ct ≠ "BOOLEAN" → ct ≠ "DATE" →
      ct ≠ "TIMESTAMP" → ct ≠ "TIMESTAMP_NS" →
      as_result_metadata cname ct = Option.none) := by
  have hsw1 : strStartsWith "VARCHAR" "DECIMAL" = false := by decide
  have hsw2 : strStartsWith "DOUBLE" "DECIMAL" = false := by decide
  have hsw3 : strStartsWith "BOOLEAN" "DECIMAL" = false := by decide
  have hsw4 : strStartsWith "DATE" "DECIMAL" = false := by decide
  have hsw5 : strStartsWith "TIMESTAMP" "DECIMAL" = false := by decide
  have hsw6 : strStartsWith "TIMESTAMP_NS" "DECIMAL" = false := by decide
  refine ⟨by simp [as_result_metadata], ?_,
    by simp [as_result_metadata, hsw1],
    by simp [as_result_metadata, hsw2],
    by simp [as_result_metadata, hsw3],
    by simp [as_result_metadata, hsw4],
    by simp [as_result_metadata, hsw5],
    by simp [as_result_metadata, hsw6], ?_⟩
  · intro p s
    have hp := natRepr_spec p
    have hs := natRepr_spec s
    have hlist := decimal_arg_toList (natRepr p) (natRepr s)
    have hne_big :
        ("DECIMAL(" ++ natRepr p ++ "," ++ natRepr s ++ ")") ≠ "BIGINT" := by
      apply ne_of_toList_ne
      rw [hlist]
      have hb : "BIGINT".toList = ['B', 'I', 'G', 'I', 'N', 'T'] := rfl
      rw [hb]
      simp
    have hsw : strStartsWith
        ("DECIMAL(" ++ natRepr p ++ "," ++ natRepr s ++ ")") "DECIMAL"
        = true := by
      unfold strStartsWith
      rw [hlist]
      have hd : "DECIMAL".toList = ['D', 'E', 'C', 'I', 'M', 'A', 'L'] := rfl
      rw [hd]
      simp [List.isPrefixOf]
    have hsearch : searchPrecScale
        ("DECIMAL(" ++ natRepr p ++ "," ++ natRepr s ++ ")").toList =
        some (p, s) := by
      rw [hlist, searchPrecScale_decimal_arg (natRepr p).toList
        (natRepr s).toList hp.1 hp.2.1 hs.1 hs.2.1, hp.2.2, hs.2.2]
    simp only [as_result_metadata, if_neg hne_big, hsw, eq_self_iff_true,
      if_true, hsearch]
  · intro ct h1 h2 h3 h4 h5 h6 h7 h8
    simp [as_result_metadata, h1, h2, h3, h4, h5, h6, h7, h8]

/-- Witness for C3: an unmapped engine type BLOB raises, and DECIMAL(9,5)
maps to type code 0 with precision 9 and scale 5. -/
theorem describe_metadata_mapping_witness :
    as_result_metadata "c" "BLOB" = Option.none ∧
    as_result_metadata "c"
        ("DECIMAL(" ++ natRepr 9 ++ "," ++ natRepr 5 ++ ")") =
      some ⟨"c", 0, Option.none, Option.none, some 9, some 5, true⟩ :=
  ⟨(describe_metadata_mapping "c").2.2.2.2.2.2.2.2 "BLOB" (by decide)
      (by decide) (by decide) (by decide) (by decide) (by decide)
      (by decide) (by decide),
    (describe_metadata_mapping "c").2.1 9 5⟩

end Fakesnow
